import Mathlib

/-!
# Verification of the AI-platform admission / quota / model-cache core

Shallow embedding of the repository's core services:

* `app/core/config.py`            → `Settings`, `settings`
* `app/services/limit_service.py` → `LimitService` namespace
* `app/services/orchestration_service.py` → `OrchestrationService` namespace
* `app/models/model_registry.py`  → `ModelRegistry` namespace

SQLite tables (`operation_limits`, `usage_log`) are modelled as finite maps
inside a `DB` value; each service call is a pure function from a `DB` to a
result together with the committed successor `DB`.  A raised Python exception
whose transaction was never committed leaves the `DB` unchanged (the
session is rolled back when the request unwinds, see `get_session` in
`app/core/database.py`).  `date.today()` is passed explicitly as an abstract
calendar-day number, mirroring the source's call-time recomputation.
-/

/-- Embedding of the `Settings` fields consumed by the core services
(`app/core/config.py`).  Dict-valued fields become `String → Option _`
(Python `dict.get`).  All fields are overridable through the environment,
hence services take the settings value as an explicit argument. -/
structure Settings where
  OPERATION_MODEL_MAP : String → Option String
  MAX_INPUT_CHARS : String → Option Int
  MAX_OUTPUT_TOKENS : String → Option Int
  DEFAULT_DAILY_LIMIT : Int

/-- The literal default values from `app/core/config.py`. -/
def settings : Settings where
  OPERATION_MODEL_MAP := fun op =>
    if op = "summarize" then some "qwen-summarize"
    else if op = "translate" then some "qwen-translate"
    else if op = "classify" then some "qwen-classify"
    else none
  MAX_INPUT_CHARS := fun op =>
    if op = "summarize" then some 8000
    else if op = "translate" then some 4000
    else if op = "classify" then some 2000
    else none
  MAX_OUTPUT_TOKENS := fun op =>
    if op = "summarize" then some 512
    else if op = "translate" then some 512
    else if op = "classify" then some 64
    else none
  DEFAULT_DAILY_LIMIT := 1000

/-- A row of the `usage_log` table (`app/core/database.py`), keyed externally
by `(operation, log_date)`.  Python ints are modelled as `Int`. -/
structure UsageLog where
  request_count : Int
  total_tokens : Int
deriving DecidableEq, Repr

/-- The durable state: the `operation_limits` table (operation ↦ daily_limit
row, when one exists) and the `usage_log` table ((operation, day) ↦ row).
Days are abstract naturals. -/
structure DB where
  limits : String → Option Int
  usage : String × Nat → Option UsageLog

/-- Point update of the usage table (an `INSERT` or in-place row update that
becomes visible at commit). -/
def DB.setUsage (db : DB) (op : String) (d : Nat) (u : UsageLog) : DB :=
  { db with usage := fun k => if k = (op, d) then some u else db.usage k }

/-- `LimitExceededError(operation, used, limit)` from
`app/services/limit_service.py`. -/
structure LimitExceededError where
  operation : String
  used : Int
  limit : Int
deriving DecidableEq, Repr

namespace LimitService

/-- `LimitService.get_daily_limit`: the stored row's `daily_limit` when the
operation has a row, else `settings.DEFAULT_DAILY_LIMIT`. -/
def get_daily_limit (st : Settings) (db : DB) (operation : String) : Int :=
  match db.limits operation with
  | some row => row
  | none => st.DEFAULT_DAILY_LIMIT

/-- `LimitService._get_or_create_usage`: fetch today's row, or add a fresh
row with both counters 0 (the `flush` makes it visible to this transaction).
Returns the (possibly extended) session state and the row. -/
def get_or_create_usage (db : DB) (operation : String) (today : Nat) :
    DB × UsageLog :=
  match db.usage (operation, today) with
  | some usage => (db, usage)
  | none =>
      let usage : UsageLog := { request_count := 0, total_tokens := 0 }
      (db.setUsage operation today usage, usage)

/-- `LimitService.check_and_increment`.  On the raise path nothing was
committed, so the durable state is the original `db`; the `Except.error`
carries the `LimitExceededError`.  On the return paths the resulting `DB`
is the committed state. -/
def check_and_increment (st : Settings) (db : DB) (operation : String)
    (today : Nat) (tokens_used : Int) : Except LimitExceededError DB :=
  let daily_limit := get_daily_limit st db operation
  if daily_limit = 0 then
    -- 0 means disabled / no limit: early return, no usage row touched.
    .ok db
  else
    let (db1, usage) := get_or_create_usage db operation today
    if usage.request_count ≥ daily_limit then
      .error { operation := operation, used := usage.request_count,
               limit := daily_limit }
    else
      .ok (db1.setUsage operation today
        { request_count := usage.request_count + 1,
          total_tokens := usage.total_tokens + tokens_used })

/-- `LimitService.record_tokens`: create-or-fetch today's row and add the
token count; always commits. -/
def record_tokens (db : DB) (operation : String) (today : Nat)
    (tokens : Int) : DB :=
  let (db1, usage) := get_or_create_usage db operation today
  db1.setUsage operation today
    { request_count := usage.request_count,
      total_tokens := usage.total_tokens + tokens }

/-- `LimitService.update_limit`: a SQL `UPDATE ... WHERE operation = op`,
which rewrites the row when one exists and is a no-op otherwise. -/
def update_limit (db : DB) (operation : String) (daily_limit : Int) : DB :=
  { db with limits := fun o =>
      if o = operation then (db.limits o).map (fun _ => daily_limit)
      else db.limits o }

/-- `k` sequential `check_and_increment` calls for one operation on one day,
stopping at the first raise. -/
def iterate_cai (st : Settings) (db : DB) (operation : String) (today : Nat) :
    Nat → Except LimitExceededError DB
  | 0 => .ok db
  | k + 1 =>
      match iterate_cai st db operation today k with
      | .ok db1 => check_and_increment st db1 operation today 0
      | .error e => .error e

end LimitService

/-- Observe a limit-service outcome: `none` when the call raised, otherwise
the stored usage row (or its absence) for the given key. -/
def resultUsage (r : Except LimitExceededError DB) (op : String) (d : Nat) :
    Option (Option UsageLog) :=
  match r with
  | .ok db => some (db.usage (op, d))
  | .error _ => none

/-- The raised error of a limit-service outcome, when it raised. -/
def resultError (r : Except LimitExceededError DB) :
    Option LimitExceededError :=
  match r with
  | .ok _ => none
  | .error e => some e

/-!
## Python value model for `_parse_classify_output`

`json.loads` on the fence-stripped model output yields a Python object
(dict / list / str / int / float / bool / None) or raises
`json.JSONDecodeError`.  We model the decoded object as `Json`; a numeric
value carries both its rational value and the string Python's `str()`
renders it as (an `int` keeps its digits, a `float` keeps its shortest
repr), since `str()` of a number is not recoverable from `ℚ` alone.
-/

/-- A Python object decoded from JSON. -/
inductive Json
  | null
  | bool (b : Bool)
  | num (val : ℚ) (rendered : String)
  | str (s : String)
  | arr (elems : List Json)
  | obj (fields : List (String × Json))

/-- A single-quote character, for Python `repr` of strings. -/
def singleQuote : String := String.singleton (Char.ofNat 39)

/-- Python `str.lower()`, character by character (ASCII case mapping;
full Unicode case folding is out of the model). -/
def pyLower (s : String) : String := String.mk (s.data.map Char.toLower)

/-- Python `str.strip()` with no argument: drop whitespace from both
ends. -/
def pyStrip (cs : List Char) : List Char :=
  ((cs.dropWhile Char.isWhitespace).reverse.dropWhile
    Char.isWhitespace).reverse

mutual

/-- Python `repr()` of a decoded JSON value (string escaping inside `repr`
of a `str` is not modelled). -/
def pyRepr : Json → String
  | .null => "None"
  | .bool true => "True"
  | .bool false => "False"
  | .num _ r => r
  | .str s => singleQuote ++ s ++ singleQuote
  | .arr xs => "[" ++ pyReprList xs ++ "]"
  | .obj kvs => "\x7b" ++ pyReprFields kvs ++ "\x7d"

/-- Comma-separated `repr`s of list elements. -/
def pyReprList : List Json → String
  | [] => ""
  | [x] => pyRepr x
  | x :: y :: xs => pyRepr x ++ ", " ++ pyReprList (y :: xs)

/-- Comma-separated `repr`s of dict items. -/
def pyReprFields : List (String × Json) → String
  | [] => ""
  | [(k, v)] => singleQuote ++ k ++ singleQuote ++ ": " ++ pyRepr v
  | (k, v) :: y :: xs =>
      singleQuote ++ k ++ singleQuote ++ ": " ++ pyRepr v ++ ", " ++
        pyReprFields (y :: xs)

end

/-- Python `str()` of a decoded JSON value (`str` of a container is its
`repr`). -/
def pyStr : Json → String
  | .null => "None"
  | .bool true => "True"
  | .bool false => "False"
  | .num _ r => r
  | .str s => s
  | .arr xs => "[" ++ pyReprList xs ++ "]"
  | .obj kvs => "\x7b" ++ pyReprFields kvs ++ "\x7d"

/-- Digits to the natural number they spell. -/
def digitsToNat (ds : List Char) : Nat :=
  ds.foldl (fun a c => a * 10 + (c.toNat - 48)) 0

/-- Python `float(<str>)` on a decimal literal: optional surrounding
whitespace, optional sign, digits with optional fraction, optional
exponent.  `nan` / `inf` / underscore separators are floating-point
corners left out of the model; on them and on any other malformed literal
the result is `none` (Python: `ValueError`). -/
def parseFloat? (s : String) : Option ℚ :=
  let t := pyStrip s.data
  let (neg, t1) : Bool × List Char :=
    match t with
    | c :: rest =>
        if c = '-' then (true, rest)
        else if c = '+' then (false, rest)
        else (false, t)
    | [] => (false, t)
  let intPart := t1.takeWhile Char.isDigit
  let rest1 := t1.dropWhile Char.isDigit
  let (fracPart, rest2) : List Char × List Char :=
    match rest1 with
    | c :: r =>
        if c = '.' then (r.takeWhile Char.isDigit, r.dropWhile Char.isDigit)
        else ([], rest1)
    | [] => ([], rest1)
  if intPart = [] ∧ fracPart = [] then none
  else
    let exp? : Option Int :=
      match rest2 with
      | [] => some 0
      | c :: r =>
          if c = 'e' ∨ c = 'E' then
            let (eneg, r1) : Bool × List Char :=
              match r with
              | d :: rr =>
                  if d = '-' then (true, rr)
                  else if d = '+' then (false, rr)
                  else (false, r)
              | [] => (false, [])
            let eDigits := r1.takeWhile Char.isDigit
            if eDigits ≠ [] ∧ r1.dropWhile Char.isDigit = [] then
              some (if eneg then -(digitsToNat eDigits : Int)
                    else (digitsToNat eDigits : Int))
            else none
          else none
    match exp? with
    | none => none
    | some e =>
        let mantissa : ℚ :=
          (digitsToNat intPart : ℚ) +
            (digitsToNat fracPart : ℚ) / ((10 : ℚ) ^ fracPart.length)
        some ((if neg then -mantissa else mantissa) * (10 : ℚ) ^ e)

/-- The Python exceptions `_parse_classify_output` can raise or catch. -/
inductive PyExc
  | valueError
  | typeError
  | attributeError
  | indexError
deriving DecidableEq, Repr

/-- Python `float()` applied to a decoded JSON value: numbers and bools
coerce, numeric strings parse (else `ValueError`), everything else is a
`TypeError`. -/
def pyFloat : Json → Except PyExc ℚ
  | .num v _ => .ok v
  | .bool b => .ok (if b then 1 else 0)
  | .str s =>
      match parseFloat? s with
      | some q => .ok q
      | none => .error .valueError
  | .null => .error .typeError
  | .arr _ => .error .typeError
  | .obj _ => .error .typeError

/-- `dict.get` on a JSON-decoded dict: duplicate keys in the source text
collapse to the last occurrence. -/
def jsonGet (fields : List (String × Json)) (k : String) : Option Json :=
  ((fields.filter (fun kv => kv.1 == k)).getLast?).map (fun kv => kv.2)

/-- `lower_map = {c.lower(): c for c in categories}` followed by
`lower_map.get(key)`: the last category whose lowercasing is `key`. -/
def lowerLookup (categories : List String) (key : String) : Option String :=
  (categories.filter (fun c => pyLower c == key)).getLast?

namespace OrchestrationService

/-- The `try` block of `_parse_classify_output`, given the outcome of
`json.loads` on the cleaned text (`Except.error ()` = `JSONDecodeError`)
and the caller categories.  Returns the `(label, confidence)` pair that
reaches the score-building code, or the uncaught Python exception:

* `JSONDecodeError` and `TypeError` (from `float(...)`) are caught by the
  `except (json.JSONDecodeError, KeyError, TypeError)` clause → fallback;
* a non-decoded object (`data.get` on a non-dict) raises `AttributeError`,
  a non-numeric confidence string raises `ValueError`, an empty category
  list raises `IndexError` — none of which the clause names, so they
  propagate. -/
def classify_try (parsed : Except Unit Json) (categories : List String) :
    Except PyExc (String × ℚ) :=
  match parsed with
  | .error _ =>
      -- except-branch: label = categories[0]; confidence = 0.5
      if categories = [] then .error .indexError
      else .ok (categories.headD "", 1 / 2)
  | .ok data =>
      match data with
      | .obj fields =>
          -- data.get("label", categories[0]) evaluates categories[0] first
          if categories = [] then .error .indexError
          else
            let label0 :=
              match jsonGet fields "label" with
              | some v => pyStr v
              | none => categories.headD ""
            let conf0 : Except PyExc ℚ :=
              match jsonGet fields "confidence" with
              | none => .ok (1 / 2)
              | some v => pyFloat v
            match conf0 with
            | .error .typeError => .ok (categories.headD "", 1 / 2)
            | .error e => .error e
            | .ok c =>
                let confidence := max 0 (min 1 c)
                match lowerLookup categories (pyLower label0) with
                | none => .ok (categories.headD "", 1 / 2)
                | some canonical => .ok (canonical, confidence)
      | _ => .error .attributeError

/-- `OrchestrationService._parse_classify_output`, from the outcome of
`json.loads` on the fence-stripped raw text.  After the `try`/`except`
the scores dict maps each distinct category to `remaining`, then the
chosen label to `confidence`. -/
def parse_classify_output (parsed : Except Unit Json)
    (categories : List String) :
    Except PyExc (String × ℚ × List (String × ℚ)) :=
  match classify_try parsed categories with
  | .error e => .error e
  | .ok (label, confidence) =>
      let remaining := (1 - confidence) / (max (categories.length - 1) 1 : ℚ)
      let scores := categories.dedup.map
        (fun c => (c, if c = label then confidence else remaining))
      .ok (label, confidence, scores)

end OrchestrationService

/-!
## Orchestration pipelines

Each `OrchestrationService` method is embedded as a pure function over the
durable `DB` plus a per-request `Env` of external outcomes (model load,
inference, the commit inside `record_tokens`).  The function returns the
response-or-exception together with the durable state after the request
unwinds: `check_and_increment` commits its increment before any later step
runs, so a later failure keeps that committed increment, while a failure
before (or inside) admission leaves the original `db`.  Wall-clock metadata
(`execution_time_ms`, timestamps) and the caller `request_id` are outside
the model.
-/

/-- Shared response metadata (`OperationMeta` in
`app/schemas/response_schema.py`), minus wall-clock fields. -/
structure OperationMeta where
  operation : String
  model_used : String
  input_chars : Nat
  output_tokens : Int
deriving DecidableEq, Repr

/-- `SummarizeResponse` payload. -/
structure SummarizeResponse where
  summary : String
  sentence_count : Nat
  meta : OperationMeta
deriving DecidableEq, Repr

/-- `TranslateResponse` payload. -/
structure TranslateResponse where
  translated_text : String
  source_language : String
  target_language : String
  meta : OperationMeta
deriving DecidableEq, Repr

/-- `ClassifyResponse` payload. -/
structure ClassifyResponse where
  label : String
  confidence : ℚ
  scores : List (String × ℚ)
  meta : OperationMeta
deriving DecidableEq, Repr

/-- The exceptions that can unwind out of an orchestration method, split by
raise site (`OrchestrationError` is one Python class; the constructor
records which raise produced it). -/
inductive OpError
  | inputTooLarge (operation : String) (length cap : Int)
  | noModelConfigured (operation : String)
  | limitExceeded (e : LimitExceededError)
  | loadFailure (msg : String)
  | keyError (key : String)
  | inferenceError (msg : String)
  | dbError
  | parseError (e : PyExc)
deriving DecidableEq, Repr

/-- Outcomes of the request's external collaborators: `get_or_load` on the
model registry, `InferenceEngine.generate` (generated text, token count),
whether the commit inside `record_tokens` succeeds, and — for classify —
the `json.loads` outcome on the fence-stripped generated text. -/
structure Env where
  load : Except String Unit
  gen : Except String (String × Int)
  recordOk : Bool
  parsed : Except Unit Json

namespace OrchestrationService

/-- `OrchestrationService._get_model_folder`: raises `OrchestrationError`
when the map has no entry or a falsy (empty) one. -/
def get_model_folder (st : Settings) (operation : String) :
    Except OpError String :=
  match st.OPERATION_MODEL_MAP operation with
  | none => .error (.noModelConfigured operation)
  | some folder =>
      if folder = "" then .error (.noModelConfigured operation)
      else .ok folder

/-- `OrchestrationService._validate_input_length`: raises when the
operation's configured cap is nonzero (Python truthiness) and the text is
longer. -/
def validate_input_length (st : Settings) (operation : String)
    (text : String) : Except OpError Unit :=
  let max_chars := (st.MAX_INPUT_CHARS operation).getD 0
  if max_chars ≠ 0 ∧ (text.length : Int) > max_chars then
    .error (.inputTooLarge operation text.length max_chars)
  else .ok ()

/-- Python `str.split(sep)` for a one-character separator, over the
character list: the runs between occurrences of the separator, empty runs
included. -/
def splitOnChar (c : Char) : List Char → List (List Char)
  | [] => [[]]
  | x :: rest =>
      if x = c then [] :: splitOnChar c rest
      else
        match splitOnChar c rest with
        | [] => [[x]]
        | g :: gs => (x :: g) :: gs

/-- `len([s for s in generated_text.split(".") if s.strip()])`: the number
of fragments between sentence dots containing a non-whitespace character
(`if s.strip()` is Python truthiness of the stripped fragment). -/
def sentence_count (generated_text : String) : Nat :=
  ((splitOnChar (Char.ofNat 46) generated_text.data).filter
    (fun s => s.any (fun ch => !ch.isWhitespace))).length

/-- `OrchestrationService.summarize`, steps in source order: validate
input length → `check_and_increment` → `_get_model_folder` →
`get_or_load` → `MAX_OUTPUT_TOKENS[op]` → generate → `record_tokens` →
assemble. -/
def summarize (st : Settings) (db : DB) (today : Nat) (text : String)
    (env : Env) : Except OpError SummarizeResponse × DB :=
  match validate_input_length st "summarize" text with
  | .error e => (.error e, db)
  | .ok _ =>
    match LimitService.check_and_increment st db "summarize" today 0 with
    | .error e => (.error (.limitExceeded e), db)
    | .ok db1 =>
      match get_model_folder st "summarize" with
      | .error e => (.error e, db1)
      | .ok folder =>
        match env.load with
        | .error msg => (.error (.loadFailure msg), db1)
        | .ok _ =>
          match st.MAX_OUTPUT_TOKENS "summarize" with
          | none => (.error (.keyError "summarize"), db1)
          | some _ =>
            match env.gen with
            | .error msg => (.error (.inferenceError msg), db1)
            | .ok (generated_text, token_count) =>
              if env.recordOk then
                (.ok { summary := generated_text,
                       sentence_count := sentence_count generated_text,
                       meta := { operation := "summarize",
                                 model_used := folder,
                                 input_chars := text.length,
                                 output_tokens := token_count } },
                 LimitService.record_tokens db1 "summarize" today token_count)
              else (.error .dbError, db1)

/-- `OrchestrationService.translate`, same step order as `summarize`. -/
def translate (st : Settings) (db : DB) (today : Nat) (text : String)
    (source_language target_language : String) (env : Env) :
    Except OpError TranslateResponse × DB :=
  match validate_input_length st "translate" text with
  | .error e => (.error e, db)
  | .ok _ =>
    match LimitService.check_and_increment st db "translate" today 0 with
    | .error e => (.error (.limitExceeded e), db)
    | .ok db1 =>
      match get_model_folder st "translate" with
      | .error e => (.error e, db1)
      | .ok folder =>
        match env.load with
        | .error msg => (.error (.loadFailure msg), db1)
        | .ok _ =>
          match st.MAX_OUTPUT_TOKENS "translate" with
          | none => (.error (.keyError "translate"), db1)
          | some _ =>
            match env.gen with
            | .error msg => (.error (.inferenceError msg), db1)
            | .ok (generated_text, token_count) =>
              if env.recordOk then
                (.ok { translated_text := generated_text,
                       source_language := source_language,
                       target_language := target_language,
                       meta := { operation := "translate",
                                 model_used := folder,
                                 input_chars := text.length,
                                 output_tokens := token_count } },
                 LimitService.record_tokens db1 "translate" today token_count)
              else (.error .dbError, db1)

/-- `OrchestrationService.classify`: as `summarize`, with
`_parse_classify_output` after token accounting; an exception escaping the
parser unwinds after the `record_tokens` commit. -/
def classify (st : Settings) (db : DB) (today : Nat) (text : String)
    (categories : List String) (env : Env) :
    Except OpError ClassifyResponse × DB :=
  match validate_input_length st "classify" text with
  | .error e => (.error e, db)
  | .ok _ =>
    match LimitService.check_and_increment st db "classify" today 0 with
    | .error e => (.error (.limitExceeded e), db)
    | .ok db1 =>
      match get_model_folder st "classify" with
      | .error e => (.error e, db1)
      | .ok folder =>
        match env.load with
        | .error msg => (.error (.loadFailure msg), db1)
        | .ok _ =>
          match st.MAX_OUTPUT_TOKENS "classify" with
          | none => (.error (.keyError "classify"), db1)
          | some _ =>
            match env.gen with
            | .error msg => (.error (.inferenceError msg), db1)
            | .ok (_generated_text, token_count) =>
              if env.recordOk then
                let db2 :=
                  LimitService.record_tokens db1 "classify" today token_count
                match parse_classify_output env.parsed categories with
                | .error e => (.error (.parseError e), db2)
                | .ok (label, confidence, scores) =>
                    (.ok { label := label,
                           confidence := confidence,
                           scores := scores,
                           meta := { operation := "classify",
                                     model_used := folder,
                                     input_chars := text.length,
                                     output_tokens := token_count } },
                     db2)
              else (.error .dbError, db1)

end OrchestrationService

/-!
## Model registry: two concurrent `get_or_load` calls for one key

`ModelRegistry.get_or_load` runs on a single asyncio event loop: code
between suspension points is atomic.  For one model key we model two
concurrent callers as an interleaving of atomic segments:

* entry segment — the fast-path registry check (return the cached handle,
  or fall through to the per-key lock);
* lock acquisition (only when the lock is free) together with the
  double-checked re-read under the lock: either return the handle another
  caller stored, or dispatch `ModelLoader.load` to the executor and
  suspend;
* load completion — store the fresh handle, release the lock, return.

Handles get distinct identities per `ModelLoader.load` invocation
(`LoadedModel` is constructed anew each load), so "same handle instance"
is identity of the recorded load number.  Every interleaving of the two
tasks is explored by bounded breadth-first reachability, which is closed
(`registryReachClosed`) and therefore complete.
-/

namespace ModelRegistry

/-- Where one `get_or_load` caller is between suspension points. -/
inductive Phase
  | start
  | wantLock
  | loading
  | done (handle : Nat)
deriving DecidableEq, Repr

/-- Shared registry state for a single model key, plus both callers. -/
structure RegState where
  registry : Option Nat
  lockHeld : Bool
  loads : Nat
  t1 : Phase
  t2 : Phase
deriving DecidableEq, Repr

/-- Both callers about to enter `get_or_load`; key never loaded. -/
def regInit : RegState :=
  { registry := none, lockHeld := false, loads := 0,
    t1 := .start, t2 := .start }

/-- The atomic transitions available to one caller, as a function of its
phase and the shared state.  Returns the successor phases paired with the
shared-state update. -/
def phaseSteps (p : Phase) (registry : Option Nat) (lockHeld : Bool)
    (loads : Nat) : List (Phase × Option Nat × Bool × Nat) :=
  match p with
  | .start =>
      -- fast path: `if model_folder in self._registry: return ...`
      match registry with
      | some h => [(.done h, registry, lockHeld, loads)]
      | none => [(.wantLock, registry, lockHeld, loads)]
  | .wantLock =>
      -- `async with self._get_lock(...)` then the double-checked re-read
      if lockHeld then []
      else
        match registry with
        | some h => [(.done h, registry, lockHeld, loads)]
        | none => [(.loading, registry, true, loads)]
  | .loading =>
      -- executor returns: store handle, release lock, return it
      [(.done loads, some loads, false, loads + 1)]
  | .done _ => []

/-- All successor states of an interleaved execution (either caller takes
its next atomic segment). -/
def nextStates (s : RegState) : List RegState :=
  (phaseSteps s.t1 s.registry s.lockHeld s.loads).map
    (fun step =>
      { registry := step.2.1, lockHeld := step.2.2.1, loads := step.2.2.2,
        t1 := step.1, t2 := s.t2 }) ++
  (phaseSteps s.t2 s.registry s.lockHeld s.loads).map
    (fun step =>
      { registry := step.2.1, lockHeld := step.2.2.1, loads := step.2.2.2,
        t1 := s.t1, t2 := step.1 })

/-- States reachable from `regInit` in at most `n` interleaved steps. -/
def reachable : Nat → List RegState
  | 0 => [regInit]
  | n + 1 =>
      let prev := reachable n
      (prev ++ prev.flatMap nextStates).dedup

/-- Each caller takes at most three atomic segments, so six steps exhaust
every interleaving. -/
def reachableAll : List RegState := reachable 6

/-- Both callers have returned. -/
def bothDone (s : RegState) : Bool :=
  match s.t1, s.t2 with
  | .done _, .done _ => true
  | _, _ => false

/-- Both callers returned the same handle and the loader ran exactly once. -/
def agreeOneLoad (s : RegState) : Bool :=
  match s.t1, s.t2 with
  | .done h1, .done h2 => h1 == h2 && s.loads == 1
  | _, _ => false

end ModelRegistry

/-!
## Characterization lemmas for the limit service
-/

/-- Request count of today's row, 0 when the row is absent. -/
def usageCount (db : DB) (op : String) (d : Nat) : Int :=
  match db.usage (op, d) with
  | some u => u.request_count
  | none => 0

/-- Token total of today's row, 0 when the row is absent. -/
def usageTokens (db : DB) (op : String) (d : Nat) : Int :=
  match db.usage (op, d) with
  | some u => u.total_tokens
  | none => 0

namespace LimitService

theorem setUsage_limits (db : DB) (op : String) (d : Nat) (u : UsageLog) :
    (db.setUsage op d u).limits = db.limits := rfl

theorem setUsage_usage_self (db : DB) (op : String) (d : Nat) (u : UsageLog) :
    (db.setUsage op d u).usage (op, d) = some u := by
  simp [DB.setUsage]

theorem setUsage_usage_other (db : DB) (op : String) (d : Nat) (u : UsageLog)
    (k : String × Nat) (hk : k ≠ (op, d)) :
    (db.setUsage op d u).usage k = db.usage k := by
  simp [DB.setUsage, hk]

theorem get_daily_limit_congr (st : Settings) (db db' : DB) (op : String)
    (h : db'.limits = db.limits) :
    get_daily_limit st db' op = get_daily_limit st db op := by
  unfold get_daily_limit
  rw [h]

/-- Disabled limit: early return, state untouched. -/
theorem cai_eq_zero (st : Settings) (db : DB) (op : String) (d : Nat)
    (t : Int) (h : get_daily_limit st db op = 0) :
    check_and_increment st db op d t = .ok db := by
  unfold check_and_increment
  simp [h]

/-- No row yet and room below the limit: a fresh row with one request. -/
theorem cai_eq_absent (st : Settings) (db : DB) (op : String) (d : Nat)
    (t : Int) (h2 : db.usage (op, d) = none)
    (h0 : get_daily_limit st db op ≠ 0)
    (hpos : ¬ (0 : Int) ≥ get_daily_limit st db op) :
    check_and_increment st db op d t =
      .ok ((db.setUsage op d { request_count := 0, total_tokens := 0 }).setUsage
        op d { request_count := 1, total_tokens := t }) := by
  unfold check_and_increment get_or_create_usage
  simp [h2, h0, hpos]

/-- Existing row below the limit: the row is incremented. -/
theorem cai_eq_present_lt (st : Settings) (db : DB) (op : String) (d : Nat)
    (t : Int) (u : UsageLog) (h2 : db.usage (op, d) = some u)
    (h0 : get_daily_limit st db op ≠ 0)
    (hlt : u.request_count < get_daily_limit st db op) :
    check_and_increment st db op d t =
      .ok (db.setUsage op d
        { request_count := u.request_count + 1,
          total_tokens := u.total_tokens + t }) := by
  unfold check_and_increment get_or_create_usage
  simp [h2, h0, not_le.mpr hlt]

/-- No row yet and a negative limit: the freshly flushed row already fails
the check, so the call raises with `used = 0` (and nothing commits). -/
theorem cai_eq_absent_ge (st : Settings) (db : DB) (op : String) (d : Nat)
    (t : Int) (h2 : db.usage (op, d) = none)
    (h0 : get_daily_limit st db op ≠ 0)
    (hneg : (0 : Int) ≥ get_daily_limit st db op) :
    check_and_increment st db op d t =
      .error { operation := op, used := 0,
               limit := get_daily_limit st db op } := by
  unfold check_and_increment get_or_create_usage
  simp [h2, h0, hneg]

/-- Existing row at or above the limit: the raise, carrying the stored
count and the limit. -/
theorem cai_eq_present_ge (st : Settings) (db : DB) (op : String) (d : Nat)
    (t : Int) (u : UsageLog) (h2 : db.usage (op, d) = some u)
    (h0 : get_daily_limit st db op ≠ 0)
    (hge : get_daily_limit st db op ≤ u.request_count) :
    check_and_increment st db op d t =
      .error { operation := op, used := u.request_count,
               limit := get_daily_limit st db op } := by
  unfold check_and_increment get_or_create_usage
  simp [h2, h0, hge]

/-- Everything `check_and_increment` can do to the state on a non-raising
call: limits untouched, other keys untouched, and today's row either left
alone (disabled limit) or rewritten to a row whose count stays at or below
the (nonzero) limit. -/
theorem cai_ok_obs (st : Settings) (db db' : DB) (op : String) (d : Nat)
    (t : Int) (h : check_and_increment st db op d t = .ok db') :
    db'.limits = db.limits ∧
    (∀ k, k ≠ (op, d) → db'.usage k = db.usage k) ∧
    (db'.usage (op, d) = db.usage (op, d) ∨
      ∃ u : UsageLog, db'.usage (op, d) = some u ∧
        get_daily_limit st db op ≠ 0 ∧
        u.request_count ≤ get_daily_limit st db op) := by
  by_cases h0 : get_daily_limit st db op = 0
  · rw [cai_eq_zero st db op d t h0] at h
    cases h
    exact ⟨rfl, fun _ _ => rfl, Or.inl rfl⟩
  · match h2 : db.usage (op, d) with
    | none =>
        by_cases hpos : (0 : Int) ≥ get_daily_limit st db op
        · rw [cai_eq_absent_ge st db op d t h2 h0 hpos] at h
          exact absurd h (by simp)
        · rw [cai_eq_absent st db op d t h2 h0 hpos] at h
          cases h
          refine ⟨rfl, fun k hk => ?_, Or.inr ⟨⟨1, t⟩, ?_, h0, ?_⟩⟩
          · rw [setUsage_usage_other _ _ _ _ _ hk,
              setUsage_usage_other _ _ _ _ _ hk]
          · exact setUsage_usage_self ..
          · show (1 : Int) ≤ get_daily_limit st db op
            omega
    | some u =>
        by_cases hge : get_daily_limit st db op ≤ u.request_count
        · rw [cai_eq_present_ge st db op d t u h2 h0 hge] at h
          exact absurd h (by simp)
        · rw [cai_eq_present_lt st db op d t u h2 h0 (not_le.mp hge)] at h
          cases h
          refine ⟨rfl, fun k hk => setUsage_usage_other _ _ _ _ _ hk,
            Or.inr ⟨_, setUsage_usage_self .., h0, ?_⟩⟩
          show u.request_count + 1 ≤ get_daily_limit st db op
          omega

/-- `record_tokens` with no row yet: a fresh row holding only the tokens. -/
theorem record_tokens_eq_absent (db : DB) (op : String) (d : Nat) (t : Int)
    (h : db.usage (op, d) = none) :
    record_tokens db op d t =
      (db.setUsage op d { request_count := 0, total_tokens := 0 }).setUsage
        op d { request_count := 0, total_tokens := t } := by
  unfold record_tokens get_or_create_usage
  simp [h]

/-- `record_tokens` with an existing row: tokens added, count untouched. -/
theorem record_tokens_eq_present (db : DB) (op : String) (d : Nat) (t : Int)
    (u : UsageLog) (h : db.usage (op, d) = some u) :
    record_tokens db op d t =
      db.setUsage op d
        { request_count := u.request_count,
          total_tokens := u.total_tokens + t } := by
  unfold record_tokens get_or_create_usage
  simp [h]

theorem record_tokens_limits (db : DB) (op : String) (d : Nat) (t : Int) :
    (record_tokens db op d t).limits = db.limits := by
  cases h : db.usage (op, d) with
  | none => rw [record_tokens_eq_absent db op d t h]; rfl
  | some u => rw [record_tokens_eq_present db op d t u h]; rfl

theorem record_tokens_usage_other (db : DB) (op : String) (d : Nat) (t : Int)
    (k : String × Nat) (hk : k ≠ (op, d)) :
    (record_tokens db op d t).usage k = db.usage k := by
  cases h : db.usage (op, d) with
  | none =>
      rw [record_tokens_eq_absent db op d t h,
        setUsage_usage_other _ _ _ _ _ hk, setUsage_usage_other _ _ _ _ _ hk]
  | some u =>
      rw [record_tokens_eq_present db op d t u h,
        setUsage_usage_other _ _ _ _ _ hk]

theorem record_tokens_usage_self (db : DB) (op : String) (d : Nat) (t : Int) :
    (record_tokens db op d t).usage (op, d) =
      some { request_count := usageCount db op d,
             total_tokens := usageTokens db op d + t } := by
  cases h : db.usage (op, d) with
  | none =>
      rw [record_tokens_eq_absent db op d t h, setUsage_usage_self]
      simp [usageCount, usageTokens, h]
  | some u =>
      rw [record_tokens_eq_present db op d t u h, setUsage_usage_self]
      simp [usageCount, usageTokens, h]

theorem update_limit_usage (db : DB) (op : String) (l : Int) :
    (update_limit db op l).usage = db.usage := rfl

theorem get_daily_limit_update_self_row (st : Settings) (db : DB)
    (op : String) (l r : Int) (hrow : db.limits op = some r) :
    get_daily_limit st (update_limit db op l) op = l := by
  unfold get_daily_limit update_limit
  simp [hrow]

theorem get_daily_limit_update_self_norow (st : Settings) (db : DB)
    (op : String) (l : Int) (hrow : db.limits op = none) :
    get_daily_limit st (update_limit db op l) op =
      get_daily_limit st db op := by
  unfold get_daily_limit update_limit
  simp [hrow]

theorem get_daily_limit_update_other (st : Settings) (db : DB)
    (op o : String) (l : Int) (ho : o ≠ op) :
    get_daily_limit st (update_limit db op l) o =
      get_daily_limit st db o := by
  unfold get_daily_limit update_limit
  simp [ho]

/-- All successful prefixes of a run of sequential `check_and_increment`
calls against a fixed nonzero limit `n`, starting from a day with no row:
after `k ≤ n` calls the state holds today's row with count `k`. -/
theorem iterate_cai_ok (st : Settings) (db : DB) (op : String) (today : Nat)
    (n : Nat) (hn : 0 < n)
    (hlim : get_daily_limit st db op = (n : Int))
    (hnone : db.usage (op, today) = none) :
    ∀ k, k ≤ n → ∃ db', iterate_cai st db op today k = .ok db' ∧
      db'.limits = db.limits ∧
      db'.usage (op, today) =
        (if k = 0 then none
         else some { request_count := (k : Int), total_tokens := 0 }) := by
  intro k
  induction k with
  | zero => exact fun _ => ⟨db, rfl, rfl, by simp [hnone]⟩
  | succ k ih =>
      intro hk
      obtain ⟨db1, hit, hlimits, husage⟩ := ih (Nat.le_of_succ_le hk)
      have hdl1 : get_daily_limit st db1 op = (n : Int) := by
        rw [get_daily_limit_congr st db db1 op hlimits, hlim]
      have hne : get_daily_limit st db1 op ≠ 0 := by
        rw [hdl1]
        exact_mod_cast hn.ne'
      have hstep : iterate_cai st db op today (k + 1) =
          check_and_increment st db1 op today 0 := by
        show (match iterate_cai st db op today k with
          | .ok db2 => check_and_increment st db2 op today 0
          | .error e => .error e) = _
        rw [hit]
      by_cases hk0 : k = 0
      · subst hk0
        rw [if_pos rfl] at husage
        have heq := cai_eq_absent st db1 op today 0 husage hne
          (by rw [hdl1]; omega)
        refine ⟨(db1.setUsage op today
          { request_count := 0, total_tokens := 0 }).setUsage op today
          { request_count := 1, total_tokens := 0 }, ?_, ?_, ?_⟩
        · rw [hstep, heq]
        · rw [setUsage_limits, setUsage_limits, hlimits]
        · rw [setUsage_usage_self]
          norm_num
      · rw [if_neg hk0] at husage
        have hklt : (k : Int) < (n : Int) := by exact_mod_cast hk
        have heq := cai_eq_present_lt st db1 op today 0 _ husage hne
          (by rw [hdl1]; exact hklt)
        refine ⟨db1.setUsage op today
          { request_count := (k : Int) + 1, total_tokens := 0 + 0 },
          ?_, ?_, ?_⟩
        · rw [hstep, heq]
        · rw [setUsage_limits, hlimits]
        · rw [setUsage_usage_self, if_neg (Nat.succ_ne_zero k)]
          push_cast
          norm_num

/-- C1 body: with limit `n > 0` and no usage yet, the first `n` sequential
admissions succeed and the `(n+1)`-th raises `LimitExceededError` carrying
the operation, `used = n` and `limit = n`. -/
theorem cai_first_n_ok_then_raises (st : Settings) (db : DB) (op : String)
    (today : Nat) (n : Nat) (hn : 0 < n)
    (hlim : get_daily_limit st db op = (n : Int))
    (hnone : db.usage (op, today) = none) :
    (∀ k, k ≤ n → (iterate_cai st db op today k).isOk = true) ∧
    resultError (iterate_cai st db op today (n + 1)) =
      some { operation := op, used := (n : Int), limit := (n : Int) } := by
  constructor
  · intro k hk
    obtain ⟨db', h, -, -⟩ := iterate_cai_ok st db op today n hn hlim hnone k hk
    rw [h]
    rfl
  · obtain ⟨db', hit, hlimits, husage⟩ :=
      iterate_cai_ok st db op today n hn hlim hnone n le_rfl
    rw [if_neg hn.ne'] at husage
    have hdl : get_daily_limit st db' op = (n : Int) := by
      rw [get_daily_limit_congr st db db' op hlimits, hlim]
    have heq := cai_eq_present_ge st db' op today 0 _ husage
      (by rw [hdl]; exact_mod_cast hn.ne') (by rw [hdl])
    rw [hdl] at heq
    have hstep : iterate_cai st db op today (n + 1) =
        check_and_increment st db' op today 0 := by
      show (match iterate_cai st db op today n with
        | .ok db2 => check_and_increment st db2 op today 0
        | .error e => .error e) = _
      rw [hit]
    rw [hstep, heq]
    rfl

end LimitService

/-!
## The quota invariant (spec §3) and its behaviour under the services
-/

/-- QuotaRecord.request_count for (op, day) never exceeds the operation's
daily limit, unless that limit is 0. -/
def QuotaInvariant (st : Settings) (db : DB) : Prop :=
  ∀ op d u, db.usage (op, d) = some u →
    LimitService.get_daily_limit st db op ≠ 0 →
    u.request_count ≤ LimitService.get_daily_limit st db op

/-- A database with no rows at all. -/
def dbEmpty : DB := { limits := fun _ => none, usage := fun _ => none }

/-- Summarize limited to 10 with 5 requests already used today. -/
def dbFive : DB :=
  { limits := fun o => if o = "summarize" then some 10 else none,
    usage := fun k => if k = ("summarize", 0) then
        some { request_count := 5, total_tokens := 0 } else none }

/-- Every operation limited to 0 (disabled), no usage. -/
def dbLimitZero : DB := { limits := fun _ => some 0, usage := fun _ => none }

/-- Every operation limited to 5, no usage. -/
def dbLimitFive : DB := { limits := fun _ => some 5, usage := fun _ => none }

/-- Classify limited to 2, no usage. -/
def dbLimitTwo : DB :=
  { limits := fun o => if o = "classify" then some 2 else none,
    usage := fun _ => none }

/-- C2 counterexample: the state `dbFive` (summarize limit 10, 5 requests
used today) satisfies the invariant, but `update_limit` lowering the limit
to 3 — an update the management route accepts — leaves the stored count 5
above the new limit 3, so the invariant is not preserved by every
quota-service operation. -/
theorem update_limit_lowering_breaks_invariant :
    QuotaInvariant settings dbFive ∧
    ¬ QuotaInvariant settings
        (LimitService.update_limit dbFive "summarize" 3) := by
  constructor
  · intro op d u hu hne
    by_cases hk : (op, d) = ("summarize", 0)
    · obtain ⟨hop, hd⟩ := Prod.ext_iff.mp hk
      simp only [dbFive] at hu
      rw [if_pos hk] at hu
      cases hu
      subst hop
      subst hd
      decide
    · simp only [dbFive] at hu
      rw [if_neg hk] at hu
      exact absurd hu (by simp)
  · intro hInv
    have h1 : (LimitService.update_limit dbFive "summarize" 3).usage
        ("summarize", 0) = some { request_count := 5, total_tokens := 0 } :=
      by decide
    have h2 : LimitService.get_daily_limit settings
        (LimitService.update_limit dbFive "summarize" 3) "summarize" = 3 :=
      by decide
    have h := hInv "summarize" 0 { request_count := 5, total_tokens := 0 }
      h1 (by rw [h2]; decide)
    rw [h2] at h
    exact absurd h (by decide)

/-- C2 (amended): the invariant is preserved by `check_and_increment`
unconditionally, by `record_tokens` whenever the operation's effective
limit is nonnegative (all limits the system writes are), and by
`update_limit` only when the new limit is 0 or at least every stored
count for that operation — lowering a limit below an existing day's
count falsifies it. -/
theorem quota_invariant_preservation (st : Settings) (db : DB)
    (op : String) (d : Nat) (t newLimit : Int)
    (hInv : QuotaInvariant st db) :
    (∀ db', LimitService.check_and_increment st db op d t = .ok db' →
      QuotaInvariant st db') ∧
    (0 ≤ LimitService.get_daily_limit st db op →
      QuotaInvariant st (LimitService.record_tokens db op d t)) ∧
    ((newLimit = 0 ∨ ∀ d2 u, db.usage (op, d2) = some u →
        u.request_count ≤ newLimit) →
      QuotaInvariant st (LimitService.update_limit db op newLimit)) := by
  refine ⟨?_, ?_, ?_⟩
  · intro db' h op2 d2 u2 hu2 hne2
    obtain ⟨hl, hother, hkey⟩ := LimitService.cai_ok_obs st db db' op d t h
    have hgd := LimitService.get_daily_limit_congr st db db' op2 hl
    rw [hgd] at hne2 ⊢
    by_cases hk : (op2, d2) = (op, d)
    · obtain ⟨hop, hd⟩ := Prod.ext_iff.mp hk
      subst hop
      subst hd
      rcases hkey with hsame | ⟨u, hu, hne, hle⟩
      · rw [hsame] at hu2
        exact hInv op2 d2 u2 hu2 hne2
      · rw [hu] at hu2
        cases hu2
        exact hle
    · rw [hother _ hk] at hu2
      exact hInv op2 d2 u2 hu2 hne2
  · intro hnn op2 d2 u2 hu2 hne2
    have hl := LimitService.record_tokens_limits db op d t
    have hgd := LimitService.get_daily_limit_congr st db
      (LimitService.record_tokens db op d t) op2 hl
    rw [hgd] at hne2 ⊢
    by_cases hk : (op2, d2) = (op, d)
    · obtain ⟨hop, hd⟩ := Prod.ext_iff.mp hk
      subst hop
      subst hd
      rw [LimitService.record_tokens_usage_self] at hu2
      cases hu2
      show usageCount db op2 d2 ≤ LimitService.get_daily_limit st db op2
      cases hrow : db.usage (op2, d2) with
      | none => simpa [usageCount, hrow] using hnn
      | some u => simpa [usageCount, hrow] using hInv op2 d2 u hrow hne2
    · rw [LimitService.record_tokens_usage_other db op d t _ hk] at hu2
      exact hInv op2 d2 u2 hu2 hne2
  · intro hcond op2 d2 u2 hu2 hne2
    rw [LimitService.update_limit_usage] at hu2
    by_cases ho : op2 = op
    · subst ho
      cases hrow : db.limits op2 with
      | none =>
          rw [LimitService.get_daily_limit_update_self_norow st db op2
            newLimit hrow] at hne2 ⊢
          exact hInv op2 d2 u2 hu2 hne2
      | some r =>
          rw [LimitService.get_daily_limit_update_self_row st db op2
            newLimit r hrow] at hne2 ⊢
          rcases hcond with h0 | hall
          · exact absurd h0 hne2
          · exact hall d2 u2 hu2
    · rw [LimitService.get_daily_limit_update_other st db op op2
        newLimit ho] at hne2 ⊢
      exact hInv op2 d2 u2 hu2 hne2

/-- Witness for `quota_invariant_preservation` at concrete inputs: from the
empty database (which satisfies the invariant) each of the three preserved
operations yields an invariant-satisfying state. -/
theorem quota_invariant_preservation_witness :
    QuotaInvariant settings
      (LimitService.record_tokens dbEmpty "summarize" 0 42) ∧
    QuotaInvariant settings
      (LimitService.update_limit dbEmpty "summarize" 0) ∧
    (match LimitService.check_and_increment settings dbEmpty
        "summarize" 0 0 with
     | .ok db1 => QuotaInvariant settings db1
     | .error _ => True) := by
  have hEmpty : QuotaInvariant settings dbEmpty := by
    intro op d u hu hne
    exact absurd hu (by simp [dbEmpty])
  refine ⟨?_, ?_, ?_⟩
  · exact (quota_invariant_preservation settings dbEmpty "summarize" 0 42 0
      hEmpty).2.1 (by decide)
  · exact (quota_invariant_preservation settings dbEmpty "summarize" 0 42 0
      hEmpty).2.2 (Or.inl rfl)
  · cases h : LimitService.check_and_increment settings dbEmpty
        "summarize" 0 0 with
    | ok db1 =>
        exact (quota_invariant_preservation settings dbEmpty "summarize"
          0 0 0 hEmpty).1 db1 h
    | error e => trivial

/-- C3 counterexample: for an operation whose daily limit is 0 the call
returns without raising, yet today's usage record still does not exist
afterwards — the early `return` skips `_get_or_create_usage` and the
increment entirely. -/
theorem cai_zero_limit_skips_recording :
    resultUsage (LimitService.check_and_increment settings dbLimitZero
      "summarize" 0 0) "summarize" 0 = some none := by
  rfl

/-- C3 (amended): a `check_and_increment` call for an operation with a
nonzero daily limit that does not raise leaves today's record holding one
more request (and the added tokens); with daily limit 0 the call succeeds
but returns early, leaving the state — today's record included —
completely untouched. -/
theorem cai_success_state (st : Settings) (db : DB) (op : String)
    (d : Nat) (t : Int) :
    (LimitService.get_daily_limit st db op = 0 →
      LimitService.check_and_increment st db op d t = .ok db) ∧
    (LimitService.get_daily_limit st db op ≠ 0 → ∀ db',
      LimitService.check_and_increment st db op d t = .ok db' →
      db'.usage (op, d) =
        some { request_count := usageCount db op d + 1,
               total_tokens := usageTokens db op d + t }) := by
  refine ⟨LimitService.cai_eq_zero st db op d t, ?_⟩
  intro h0 db' h
  cases h2 : db.usage (op, d) with
  | none =>
      by_cases hpos : (0 : Int) ≥ LimitService.get_daily_limit st db op
      · rw [LimitService.cai_eq_absent_ge st db op d t h2 h0 hpos] at h
        exact absurd h (by simp)
      · rw [LimitService.cai_eq_absent st db op d t h2 h0 hpos] at h
        cases h
        rw [LimitService.setUsage_usage_self]
        simp [usageCount, usageTokens, h2]
  | some u =>
      by_cases hge : LimitService.get_daily_limit st db op ≤ u.request_count
      · rw [LimitService.cai_eq_present_ge st db op d t u h2 h0 hge] at h
        exact absurd h (by simp)
      · rw [LimitService.cai_eq_present_lt st db op d t u h2 h0
          (not_le.mp hge)] at h
        cases h
        rw [LimitService.setUsage_usage_self]
        simp [usageCount, usageTokens, h2]

/-- Witness for `cai_success_state`: at limit 0 the state is returned
unchanged; at limit 5 from no usage the resulting record is (1, 7). -/
theorem cai_success_state_witness :
    LimitService.check_and_increment settings dbLimitZero "summarize" 0 0 =
      .ok dbLimitZero ∧
    (match LimitService.check_and_increment settings dbLimitFive
        "summarize" 0 7 with
     | .ok db' => db'.usage ("summarize", 0) =
         some { request_count := 1, total_tokens := 7 }
     | .error _ => False) := by
  constructor
  · exact (cai_success_state settings dbLimitZero "summarize" 0 0).1 rfl
  · cases h : LimitService.check_and_increment settings dbLimitFive
        "summarize" 0 7 with
    | ok db' =>
        exact (cai_success_state settings dbLimitFive "summarize" 0 7).2
          (by decide) db' h
    | error e =>
        have hok : (LimitService.check_and_increment settings dbLimitFive
            "summarize" 0 7).isOk = true := rfl
        rw [h] at hok
        exact Bool.noConfusion hok

/-- Witness for `LimitService.cai_first_n_ok_then_raises` with limit 2 on
classify: two admissions succeed, the third raises with used = limit = 2. -/
theorem cai_first_n_witness :
    (LimitService.iterate_cai settings dbLimitTwo "classify" 0 2).isOk =
      true ∧
    resultError (LimitService.iterate_cai settings dbLimitTwo
        "classify" 0 3) =
      some { operation := "classify", used := 2, limit := 2 } := by
  have h := LimitService.cai_first_n_ok_then_raises settings dbLimitTwo
    "classify" 0 2 (by decide) (by decide) rfl
  exact ⟨h.1 2 le_rfl, h.2⟩

/-- C10: an operation with no stored limit row resolves to the process-wide
default daily limit 1000 — not a failure, and not 0 (unlimited) — for any
operation string whatsoever. -/
theorem get_daily_limit_default_for_unseeded (db : DB) (op : String)
    (h : db.limits op = none) :
    LimitService.get_daily_limit settings db op = 1000 ∧
    settings.DEFAULT_DAILY_LIMIT = 1000 ∧ (1000 : Int) ≠ 0 := by
  refine ⟨?_, rfl, by decide⟩
  unfold LimitService.get_daily_limit
  rw [h]
  rfl

/-- Witness for `get_daily_limit_default_for_unseeded` on an operation name
the system never seeds. -/
theorem get_daily_limit_default_witness :
    LimitService.get_daily_limit settings dbEmpty "embedding" = 1000 ∧
    settings.DEFAULT_DAILY_LIMIT = 1000 ∧ (1000 : Int) ≠ 0 :=
  get_daily_limit_default_for_unseeded dbEmpty "embedding" rfl

/-!
## Orchestration pipeline claims
-/

/-- Settings whose operation → model map is empty (every field of
`Settings` is environment-overridable). -/
def stNoModels : Settings :=
  { settings with OPERATION_MODEL_MAP := fun _ => none }

/-- A request environment where every collaborator succeeds. -/
def envOK : Env :=
  { load := .ok (), gen := .ok ("out", 7), recordOk := true,
    parsed := .error () }

/-- C4 counterexample: with no model configured for summarize, a valid
request fails with the configuration error — but today's usage record now
shows one request: admission ran and committed before the model-map check,
so the doomed request consumed quota. -/
theorem config_check_after_admission_consumes_quota :
    (OrchestrationService.summarize stNoModels dbEmpty 0 "hello" envOK).1 =
      .error (.noModelConfigured "summarize") ∧
    ((OrchestrationService.summarize stNoModels dbEmpty 0 "hello"
        envOK).2).usage ("summarize", 0) =
      some { request_count := 1, total_tokens := 0 } := by
  constructor <;> rfl

/-- C4 (amended): in each pipeline the input-length check precedes the
admission call — a request failing it terminates with the database (hence
today's usage record) unchanged — while the model-configuration check runs
only after admission, so a request for an unconfigured operation fails
with the configuration error in the post-admission state, its committed
increment included. -/
theorem validation_vs_admission_order (st : Settings) (db db1 : DB)
    (today : Nat) (text src tgt : String) (cats : List String) (env : Env)
    (e : OpError) :
    (OrchestrationService.validate_input_length st "summarize" text =
        .error e →
      OrchestrationService.summarize st db today text env = (.error e, db)) ∧
    (OrchestrationService.validate_input_length st "translate" text =
        .error e →
      OrchestrationService.translate st db today text src tgt env =
        (.error e, db)) ∧
    (OrchestrationService.validate_input_length st "classify" text =
        .error e →
      OrchestrationService.classify st db today text cats env =
        (.error e, db)) ∧
    (OrchestrationService.validate_input_length st "summarize" text =
        .ok () →
      st.OPERATION_MODEL_MAP "summarize" = none →
      LimitService.check_and_increment st db "summarize" today 0 =
        .ok db1 →
      OrchestrationService.summarize st db today text env =
        (.error (.noModelConfigured "summarize"), db1)) ∧
    (OrchestrationService.validate_input_length st "translate" text =
        .ok () →
      st.OPERATION_MODEL_MAP "translate" = none →
      LimitService.check_and_increment st db "translate" today 0 =
        .ok db1 →
      OrchestrationService.translate st db today text src tgt env =
        (.error (.noModelConfigured "translate"), db1)) ∧
    (OrchestrationService.validate_input_length st "classify" text =
        .ok () →
      st.OPERATION_MODEL_MAP "classify" = none →
      LimitService.check_and_increment st db "classify" today 0 =
        .ok db1 →
      OrchestrationService.classify st db today text cats env =
        (.error (.noModelConfigured "classify"), db1)) := by
  refine ⟨?_, ?_, ?_, ?_, ?_, ?_⟩
  · intro hval
    unfold OrchestrationService.summarize
    rw [hval]
  · intro hval
    unfold OrchestrationService.translate
    rw [hval]
  · intro hval
    unfold OrchestrationService.classify
    rw [hval]
  · intro hval hmap hcai
    have hgf : OrchestrationService.get_model_folder st "summarize" =
        .error (.noModelConfigured "summarize") := by
      unfold OrchestrationService.get_model_folder
      rw [hmap]
    unfold OrchestrationService.summarize
    rw [hval, hcai, hgf]
  · intro hval hmap hcai
    have hgf : OrchestrationService.get_model_folder st "translate" =
        .error (.noModelConfigured "translate") := by
      unfold OrchestrationService.get_model_folder
      rw [hmap]
    unfold OrchestrationService.translate
    rw [hval, hcai, hgf]
  · intro hval hmap hcai
    have hgf : OrchestrationService.get_model_folder st "classify" =
        .error (.noModelConfigured "classify") := by
      unfold OrchestrationService.get_model_folder
      rw [hmap]
    unfold OrchestrationService.classify
    rw [hval, hcai, hgf]

/-- Settings with a tiny hard cap, for exercising the input-length branch
cheaply. -/
def stTinyCap : Settings :=
  { settings with MAX_INPUT_CHARS := fun _ => some 3 }

/-- Witness for `validation_vs_admission_order`: a 5-character text against
a cap of 3 is rejected with the state unchanged in all three pipelines;
with no model configured, each pipeline fails with `noModelConfigured`
from the post-admission state. -/
theorem validation_vs_admission_order_witness :
    (OrchestrationService.summarize stTinyCap dbEmpty 0 "hello" envOK =
      (.error (.inputTooLarge "summarize" 5 3), dbEmpty)) ∧
    (OrchestrationService.translate stTinyCap dbEmpty 0 "hello" "en" "fr"
        envOK =
      (.error (.inputTooLarge "translate" 5 3), dbEmpty)) ∧
    (OrchestrationService.classify stTinyCap dbEmpty 0 "hello"
        ["a", "b"] envOK =
      (.error (.inputTooLarge "classify" 5 3), dbEmpty)) ∧
    (match LimitService.check_and_increment stNoModels dbEmpty
        "summarize" 0 0 with
     | .ok db1 => OrchestrationService.summarize stNoModels dbEmpty 0 "hi"
          envOK = (.error (.noModelConfigured "summarize"), db1)
     | .error _ => False) ∧
    (match LimitService.check_and_increment stNoModels dbEmpty
        "translate" 0 0 with
     | .ok db1 => OrchestrationService.translate stNoModels dbEmpty 0 "hi"
          "en" "fr" envOK = (.error (.noModelConfigured "translate"), db1)
     | .error _ => False) ∧
    (match LimitService.check_and_increment stNoModels dbEmpty
        "classify" 0 0 with
     | .ok db1 => OrchestrationService.classify stNoModels dbEmpty 0 "hi"
          ["a", "b"] envOK = (.error (.noModelConfigured "classify"), db1)
     | .error _ => False) := by
  refine ⟨?_, ?_, ?_, ?_, ?_, ?_⟩
  · exact (validation_vs_admission_order stTinyCap dbEmpty dbEmpty 0
      "hello" "en" "fr" ["a", "b"] envOK
      (.inputTooLarge "summarize" 5 3)).1 rfl
  · exact (validation_vs_admission_order stTinyCap dbEmpty dbEmpty 0
      "hello" "en" "fr" ["a", "b"] envOK
      (.inputTooLarge "translate" 5 3)).2.1 rfl
  · exact (validation_vs_admission_order stTinyCap dbEmpty dbEmpty 0
      "hello" "en" "fr" ["a", "b"] envOK
      (.inputTooLarge "classify" 5 3)).2.2.1 rfl
  · cases h : LimitService.check_and_increment stNoModels dbEmpty
        "summarize" 0 0 with
    | ok db1 =>
        exact (validation_vs_admission_order stNoModels dbEmpty db1 0
          "hi" "en" "fr" ["a", "b"] envOK .dbError).2.2.2.1 rfl rfl h
    | error e =>
        have hok : (LimitService.check_and_increment stNoModels dbEmpty
            "summarize" 0 0).isOk = true := rfl
        rw [h] at hok
        exact Bool.noConfusion hok
  · cases h : LimitService.check_and_increment stNoModels dbEmpty
        "translate" 0 0 with
    | ok db1 =>
        exact (validation_vs_admission_order stNoModels dbEmpty db1 0
          "hi" "en" "fr" ["a", "b"] envOK .dbError).2.2.2.2.1 rfl rfl h
    | error e =>
        have hok : (LimitService.check_and_increment stNoModels dbEmpty
            "translate" 0 0).isOk = true := rfl
        rw [h] at hok
        exact Bool.noConfusion hok
  · cases h : LimitService.check_and_increment stNoModels dbEmpty
        "classify" 0 0 with
    | ok db1 =>
        exact (validation_vs_admission_order stNoModels dbEmpty db1 0
          "hi" "en" "fr" ["a", "b"] envOK .dbError).2.2.2.2.2 rfl rfl h
    | error e =>
        have hok : (LimitService.check_and_increment stNoModels dbEmpty
            "classify" 0 0).isOk = true := rfl
        rw [h] at hok
        exact Bool.noConfusion hok

/-- A request environment where generation succeeds. -/
def envGen : Env :=
  { load := .ok (), gen := .ok ("A summary.", 5), recordOk := true,
    parsed := .error () }

/-- C7: after a successful generation, a failing `record_tokens` commit
makes the whole request fail with the database error — the already
produced generation result is discarded, not returned: the call sits
outside any `try`.  The second conjunct shows the identical request with a
healthy ledger returns the generated summary. -/
theorem record_tokens_failure_fails_request :
    (OrchestrationService.summarize settings dbEmpty 0 "hello"
      { envGen with recordOk := false }).1 = .error .dbError ∧
    (OrchestrationService.summarize settings dbEmpty 0 "hello" envGen).1 =
      .ok { summary := "A summary.", sentence_count := 1,
            meta := { operation := "summarize",
                      model_used := "qwen-summarize",
                      input_chars := 5, output_tokens := 5 } } := by
  constructor <;> rfl

/-- C9: a summarize input of exactly 8000 characters passes the hard-cap
validation; 8001 characters is rejected with `InputTooLarge` before the
admission call, the request terminating with the database — today's usage
record included — unchanged. -/
theorem summarize_hard_cap_boundary (db : DB) (today : Nat) (text : String)
    (env : Env) :
    (text.length = 8000 →
      OrchestrationService.validate_input_length settings "summarize"
        text = .ok ()) ∧
    (text.length = 8001 →
      OrchestrationService.summarize settings db today text env =
        (.error (.inputTooLarge "summarize" 8001 8000), db)) := by
  constructor
  · intro h
    show (if ((8000 : Int) ≠ 0 ∧ (text.length : Int) > (8000 : Int)) then
        Except.error (OpError.inputTooLarge "summarize"
          (text.length : Int) (8000 : Int))
      else .ok ()) = .ok ()
    rw [h]
    norm_num
  · intro h
    have hval : OrchestrationService.validate_input_length settings
        "summarize" text =
        .error (.inputTooLarge "summarize" 8001 8000) := by
      show (if ((8000 : Int) ≠ 0 ∧ (text.length : Int) > (8000 : Int)) then
          Except.error (OpError.inputTooLarge "summarize"
            (text.length : Int) (8000 : Int))
        else .ok ()) = _
      rw [h]
      norm_num
    unfold OrchestrationService.summarize
    rw [hval]

/-- Witness for `summarize_hard_cap_boundary` on concrete 8000- and
8001-character texts. -/
theorem summarize_hard_cap_boundary_witness :
    OrchestrationService.validate_input_length settings "summarize"
      (String.mk (List.replicate 8000 'a')) = .ok () ∧
    OrchestrationService.summarize settings dbEmpty 0
        (String.mk (List.replicate 8001 'a')) envOK =
      (.error (.inputTooLarge "summarize" 8001 8000), dbEmpty) := by
  constructor
  · exact (summarize_hard_cap_boundary dbEmpty 0
      (String.mk (List.replicate 8000 'a')) envOK).1 (by
        show (List.replicate 8000 'a').length = 8000
        rw [List.length_replicate])
  · exact (summarize_hard_cap_boundary dbEmpty 0
      (String.mk (List.replicate 8001 'a')) envOK).2 (by
        show (List.replicate 8001 'a').length = 8001
        rw [List.length_replicate])

/-!
## Classification parser claims
-/

/-- The label of a parser outcome, when it returned. -/
def parseLabel (r : Except PyExc (String × ℚ × List (String × ℚ))) :
    Option String :=
  match r with
  | .ok v => some v.1
  | .error _ => none

/-- The confidence of a parser outcome, when it returned. -/
def parseConf (r : Except PyExc (String × ℚ × List (String × ℚ))) :
    Option ℚ :=
  match r with
  | .ok v => some v.2.1
  | .error _ => none

theorem headD_mem (cats : List String) (d : String) (h : cats ≠ []) :
    cats.headD d ∈ cats := by
  cases cats with
  | nil => exact absurd rfl h
  | cons a as => exact List.mem_cons_self a as

theorem getLast?_mem_of_eq {α : Type} (l : List α) (a : α)
    (h : l.getLast? = some a) : a ∈ l := by
  induction l with
  | nil => simp at h
  | cons x xs ih =>
      cases xs with
      | nil =>
          simp [List.getLast?] at h
          simp [h]
      | cons y ys =>
          rw [List.getLast?_cons_cons] at h
          exact List.mem_cons_of_mem x (ih h)

theorem lowerLookup_mem (cats : List String) (k c : String)
    (h : lowerLookup cats k = some c) : c ∈ cats := by
  unfold lowerLookup at h
  exact List.mem_of_mem_filter (getLast?_mem_of_eq _ _ h)

/-- The `try` block applied to a decode failure, written out. -/
theorem classify_try_decode_error (u : Unit) (cats : List String) :
    OrchestrationService.classify_try (.error u) cats =
      (if cats = [] then Except.error PyExc.indexError
       else Except.ok (cats.headD "", (1 / 2 : ℚ))) := rfl

/-- The `try` block applied to a decoded dict, written out (the three
`let`s of the source inlined). -/
theorem classify_try_obj (fields : List (String × Json))
    (cats : List String) :
    OrchestrationService.classify_try (.ok (.obj fields)) cats =
      (if cats = [] then Except.error PyExc.indexError
       else
         match (match jsonGet fields "confidence" with
                | none => Except.ok (1 / 2 : ℚ)
                | some v => pyFloat v) with
         | .error .typeError => Except.ok (cats.headD "", (1 / 2 : ℚ))
         | .error e => Except.error e
         | .ok c =>
             match lowerLookup cats
                 (pyLower (match jsonGet fields "label" with
                   | some v => pyStr v
                   | none => cats.headD "")) with
             | none => Except.ok (cats.headD "", (1 / 2 : ℚ))
             | some canonical => Except.ok (canonical, max 0 (min 1 c))) :=
  rfl

/-- Any label `classify_try` returns is drawn from the caller categories:
both fallback branches return `categories[0]` and the matched branch
returns an element of the lowercase map, which is built from the list. -/
theorem classify_try_ok_mem (parsed : Except Unit Json)
    (cats : List String) (label : String) (conf : ℚ)
    (h : OrchestrationService.classify_try parsed cats = .ok (label, conf)) :
    label ∈ cats := by
  cases parsed with
  | error u =>
      rw [classify_try_decode_error] at h
      by_cases hne : cats = []
      · rw [if_pos hne] at h
        exact absurd h (by simp)
      · rw [if_neg hne] at h
        injection h with h2
        injection h2 with h3 h4
        subst h3
        exact headD_mem cats "" hne
  | ok data =>
      cases data with
      | obj fields =>
          rw [classify_try_obj] at h
          by_cases hne : cats = []
          · rw [if_pos hne] at h
            exact absurd h (by simp)
          · rw [if_neg hne] at h
            rcases hc0 : (match jsonGet fields "confidence" with
                          | none => Except.ok (1 / 2 : ℚ)
                          | some v => pyFloat v) with e | c
            · rw [hc0] at h
              cases e with
              | typeError =>
                  dsimp only at h
                  injection h with h2
                  injection h2 with h3 h4
                  subst h3
                  exact headD_mem cats "" hne
              | valueError => dsimp only at h; exact absurd h (by simp)
              | attributeError => dsimp only at h; exact absurd h (by simp)
              | indexError => dsimp only at h; exact absurd h (by simp)
            · rw [hc0] at h
              dsimp only at h
              rcases hlo : lowerLookup cats
                  (pyLower (match jsonGet fields "label" with
                    | some v => pyStr v
                    | none => cats.headD "")) with _ | canonical
              · rw [hlo] at h
                dsimp only at h
                injection h with h2
                injection h2 with h3 h4
                subst h3
                exact headD_mem cats "" hne
              · rw [hlo] at h
                dsimp only at h
                injection h with h2
                injection h2 with h3 h4
                subst h3
                exact lowerLookup_mem cats _ _ hlo
      | null =>
          rw [show OrchestrationService.classify_try (.ok .null) cats =
            .error .attributeError from rfl] at h
          exact absurd h (by simp)
      | bool b =>
          rw [show OrchestrationService.classify_try (.ok (.bool b)) cats =
            .error .attributeError from rfl] at h
          exact absurd h (by simp)
      | num v r =>
          rw [show OrchestrationService.classify_try (.ok (.num v r)) cats =
            .error .attributeError from rfl] at h
          exact absurd h (by simp)
      | str s =>
          rw [show OrchestrationService.classify_try (.ok (.str s)) cats =
            .error .attributeError from rfl] at h
          exact absurd h (by simp)
      | arr xs =>
          rw [show OrchestrationService.classify_try (.ok (.arr xs)) cats =
            .error .attributeError from rfl] at h
          exact absurd h (by simp)

theorem sum_if_not_mem (cats : List String) (label : String) (conf r : ℚ)
    (h : label ∉ cats) :
    (cats.map fun c => if c = label then conf else r).sum =
      cats.length * r := by
  induction cats with
  | nil => simp
  | cons a as ih =>
      simp only [List.map_cons, List.sum_cons, List.length_cons]
      rw [if_neg (by intro hh; subst hh; exact h (List.mem_cons_self a as)),
        ih (fun hm => h (List.mem_cons_of_mem a hm))]
      push_cast
      ring

theorem sum_if_mem (cats : List String) (label : String) (conf r : ℚ)
    (hnd : cats.Nodup) (hmem : label ∈ cats) :
    (cats.map fun c => if c = label then conf else r).sum =
      conf + ((cats.length : ℚ) - 1) * r := by
  induction cats with
  | nil => cases hmem
  | cons a as ih =>
      obtain ⟨hna, hnd2⟩ := List.nodup_cons.mp hnd
      rcases List.mem_cons.mp hmem with heq | hmem2
      · subst heq
        simp only [List.map_cons, List.sum_cons, List.length_cons,
          if_pos rfl]
        rw [sum_if_not_mem as label conf r hna]
        push_cast
        ring
      · have hne : a ≠ label := fun hh => by subst hh; exact hna hmem2
        simp only [List.map_cons, List.sum_cons, List.length_cons]
        rw [if_neg hne, ih hnd2 hmem2]
        push_cast
        ring

/-- The matched path through the `try` block: label found and matched
case-insensitively, confidence float-coercible — the canonical category
and the clamped confidence come back. -/
theorem classify_matched (cats : List String)
    (fields : List (String × Json)) (v cv : Json) (q : ℚ)
    (canonical : String) (hne : cats ≠ [])
    (hlab : jsonGet fields "label" = some v)
    (hconf : jsonGet fields "confidence" = some cv)
    (hfloat : pyFloat cv = .ok q)
    (hmatch : lowerLookup cats (pyLower (pyStr v)) = some canonical) :
    OrchestrationService.classify_try (.ok (.obj fields)) cats =
      .ok (canonical, max 0 (min 1 q)) := by
  rw [classify_try_obj, if_neg hne, hconf]
  dsimp only
  rw [hfloat]
  dsimp only
  rw [hlab]
  dsimp only
  rw [hmatch]

/-- C5: the parser is not total over backend outputs.  Raw output
decoding to a JSON array (for example the text `[]`) reaches
`data.get` on a non-dict and raises `AttributeError`, which
`except (json.JSONDecodeError, KeyError, TypeError)` does not catch — the
parse failure propagates to the caller, against both the claim and the
function's own docstring.  The other conjuncts confirm the fallback the
spec prescribes does fire on a `JSONDecodeError`. -/
theorem parse_classify_output_leaks_attribute_error :
    OrchestrationService.parse_classify_output (.ok (.arr []))
      ["positive", "negative"] = .error .attributeError ∧
    parseLabel (OrchestrationService.parse_classify_output (.error ())
      ["positive", "negative"]) = some "positive" ∧
    parseConf (OrchestrationService.parse_classify_output (.error ())
      ["positive", "negative"]) = some (1 / 2) := by
  refine ⟨rfl, rfl, rfl⟩

/-- C6 counterexample: backend output decoding to
`{"label": "negative", "confidence": "abc"}` — an object whose label
matches a caller category — makes `float("abc")` raise `ValueError`,
which the except clause does not catch: the call raises instead of
returning the matched category with a clamped confidence. -/
theorem classify_confidence_value_error :
    OrchestrationService.parse_classify_output
      (.ok (.obj [("label", .str "negative"), ("confidence", .str "abc")]))
      ["positive", "negative"] = .error .valueError := rfl

/-- C6 (amended): whenever the parser returns a result for at least two
distinct categories, the winning label is a caller category, every other
category scores `(1 - confidence) / (N - 1)`, and the scores sum to 1;
and when the output decodes to an object whose label matches a caller
category case-insensitively and whose confidence value float-coerces,
the returned label is the category as the caller spelled it and the
confidence is the coerced value clamped into [0, 1]. -/
theorem classify_scores_distribution
    (cats : List String) (parsed : Except Unit Json)
    (label canonical : String) (conf q : ℚ)
    (scores : List (String × ℚ)) (fields : List (String × Json))
    (v cv : Json)
    (hnd : cats.Nodup) (hlen : 2 ≤ cats.length) :
    (OrchestrationService.parse_classify_output parsed cats =
        .ok (label, conf, scores) →
      label ∈ cats ∧
      scores = cats.map (fun c =>
        (c, if c = label then conf
            else (1 - conf) / ((cats.length : ℚ) - 1))) ∧
      (scores.map Prod.snd).sum = 1) ∧
    (jsonGet fields "label" = some v →
      lowerLookup cats (pyLower (pyStr v)) = some canonical →
      jsonGet fields "confidence" = some cv →
      pyFloat cv = .ok q →
      canonical ∈ cats ∧
      parseLabel (OrchestrationService.parse_classify_output
          (.ok (.obj fields)) cats) = some canonical ∧
      parseConf (OrchestrationService.parse_classify_output
          (.ok (.obj fields)) cats) = some (max 0 (min 1 q))) := by
  have hlen2 : (2 : ℚ) ≤ (cats.length : ℚ) := by exact_mod_cast hlen
  have hlen1 : (1 : ℚ) ≤ (cats.length : ℚ) - 1 := by linarith
  have hne0 : (cats.length : ℚ) - 1 ≠ 0 := by linarith
  have hmax : max ((cats.length : ℚ) - 1) 1 = (cats.length : ℚ) - 1 :=
    max_eq_left hlen1
  constructor
  · intro hp
    unfold OrchestrationService.parse_classify_output at hp
    cases hct : OrchestrationService.classify_try parsed cats with
    | error e =>
        rw [hct] at hp
        exact absurd hp (by simp)
    | ok lc =>
        obtain ⟨l0, c0⟩ := lc
        rw [hct] at hp
        dsimp only at hp
        simp only [Except.ok.injEq, Prod.mk.injEq] at hp
        obtain ⟨rfl, rfl, rfl⟩ := hp
        have hmem := classify_try_ok_mem parsed cats l0 c0 hct
        refine ⟨hmem, ?_, ?_⟩
        · rw [List.Nodup.dedup hnd]
          simp only [hmax]
        · rw [List.Nodup.dedup hnd]
          simp only [hmax]
          rw [List.map_map]
          show (cats.map fun c => if c = l0 then c0
            else (1 - c0) / ((cats.length : ℚ) - 1)).sum = 1
          rw [sum_if_mem cats l0 c0 _ hnd hmem]
          have hcancel : ((cats.length : ℚ) - 1) *
              ((1 - c0) / ((cats.length : ℚ) - 1)) = 1 - c0 := by
            field_simp
          rw [hcancel]
          ring
  · intro hlab hmatch hconf hfloat
    have hne : cats ≠ [] := by
      intro hnil
      rw [hnil] at hlen
      exact absurd hlen (by decide)
    have hct := classify_matched cats fields v cv q canonical hne hlab
      hconf hfloat hmatch
    refine ⟨lowerLookup_mem cats _ canonical hmatch, ?_, ?_⟩
    · unfold OrchestrationService.parse_classify_output
      rw [hct]
      rfl
    · unfold OrchestrationService.parse_classify_output
      rw [hct]
      rfl

/-- Witness for `classify_scores_distribution`: the fallback outcome on a
decode failure has a full, summing-to-one score distribution over
`["positive", "negative"]`; output
`{"label": "Negative", "confidence": 0.8}` comes back as the
caller-spelled `"negative"` with confidence clamped from 0.8. -/
theorem classify_scores_distribution_witness :
    (match OrchestrationService.parse_classify_output (.error ())
        ["positive", "negative"] with
     | .ok (label, conf, scores) =>
         label ∈ ["positive", "negative"] ∧
         scores = ["positive", "negative"].map (fun c =>
           (c, if c = label then conf
               else (1 - conf) /
                 (((["positive", "negative"] : List String).length : ℚ)
                   - 1))) ∧
         (scores.map Prod.snd).sum = 1
     | .error _ => False) ∧
    ("negative" ∈ ["positive", "negative"] ∧
     parseLabel (OrchestrationService.parse_classify_output
        (.ok (.obj [("label", .str "Negative"),
          ("confidence", .num (4 / 5) "0.8")]))
        ["positive", "negative"]) = some "negative" ∧
     parseConf (OrchestrationService.parse_classify_output
        (.ok (.obj [("label", .str "Negative"),
          ("confidence", .num (4 / 5) "0.8")]))
        ["positive", "negative"]) = some (max 0 (min 1 (4 / 5)))) := by
  constructor
  · cases h : OrchestrationService.parse_classify_output (.error ())
        ["positive", "negative"] with
    | ok t =>
        obtain ⟨label, conf, scores⟩ := t
        exact (classify_scores_distribution ["positive", "negative"]
          (.error ()) label "" conf 0 scores [] .null .null
          (by decide) (by decide)).1 h
    | error e =>
        have hok : (OrchestrationService.parse_classify_output (.error ())
            ["positive", "negative"]).isOk = true := rfl
        rw [h] at hok
        exact Bool.noConfusion hok
  · exact (classify_scores_distribution ["positive", "negative"]
      (.error ()) "" "negative" 0 (4 / 5) []
      [("label", .str "Negative"), ("confidence", .num (4 / 5) "0.8")]
      (.str "Negative") (.num (4 / 5) "0.8")
      (by decide) (by decide)).2 rfl rfl rfl rfl

/-- C8: in the two-caller interleaving model of `get_or_load` for one
model key, every reachable state has seen at most one loader invocation;
in every terminal state both callers hold the same handle and the loader
ran exactly once.  The reachable set is closed under the step relation
and contains the initial state, so the bounded exploration is complete. -/
theorem get_or_load_single_load :
    (∀ s, s ∈ ModelRegistry.reachableAll → s.loads ≤ 1 ∧
      (ModelRegistry.bothDone s = true →
        ModelRegistry.agreeOneLoad s = true)) ∧
    (∀ s, s ∈ ModelRegistry.reachableAll →
      ∀ s2, s2 ∈ ModelRegistry.nextStates s →
        s2 ∈ ModelRegistry.reachableAll) ∧
    ModelRegistry.regInit ∈ ModelRegistry.reachableAll := by
  refine ⟨by decide, by decide, by decide⟩

/-- Witness for `get_or_load_single_load` at the terminal state of the
model: both callers done with handle 0 after exactly one load. -/
theorem get_or_load_single_load_witness :
    ModelRegistry.agreeOneLoad
      { registry := some 0, lockHeld := false, loads := 1,
        t1 := .done 0, t2 := .done 0 } = true :=
  (get_or_load_single_load.1
    { registry := some 0, lockHeld := false, loads := 1,
      t1 := .done 0, t2 := .done 0 } (by decide)).2 (by decide)
